import Mathlib

/-!
Verification of the core lookup-and-render logic of `pincode_bot.py`.

The program is a chat bot over a static postal-code table.  We shallowly embed
the pure core: the dataset is a `List Record`; `search_pincode`, `format_result`,
`create_pdf`, `handle_search` and `export_pdf` are translated from the Python
source.  External effects (message sending, the PDF library writing a file,
the filesystem) are modelled as explicit data: outbound messages are values,
and the export handler's temporary-file lifecycle is tracked as the list of
files left on disk when the handler returns.  Failures of external calls are
injected through an explicit failure-point parameter.

Unicode-sensitive Python primitives (`str.strip`, `str.lower`, `int`) are
modelled on their ASCII behaviour, which is the behaviour exercised by every
theorem below.
-/

/-- The ASCII whitespace characters stripped by Python's `str.strip()` and by
`int()` before parsing. -/
def pyWhitespace : List Char := [' ', '\t', '\n', '\r', '\x0b', '\x0c']

/-- Strip `pyWhitespace` characters from both ends of a character list. -/
def stripChars (l : List Char) : List Char :=
  ((l.dropWhile (fun c => pyWhitespace.contains c)).reverse.dropWhile
    (fun c => pyWhitespace.contains c)).reverse

/-- Python `str.strip()` (ASCII whitespace). -/
def pyStrip (s : String) : String := String.mk (stripChars s.toList)

/-- Python `str.lower()` (ASCII letters; `Char.toLower` lowers exactly the
ASCII uppercase range). -/
def pyLower (s : String) : String := String.mk (s.toList.map Char.toLower)

/-- Value of an ASCII digit character. -/
def digitVal (c : Char) : Nat := c.toNat - 48

/-- Parse the digit tail of a Python integer literal: after the first digit,
`int()` accepts further digits with single underscores allowed only between
two digits.  `acc` is the value of the digits consumed so far. -/
def pyDigitsTail (acc : Nat) : List Char → Option Nat
  | [] => some acc
  | c :: cs =>
    if c.isDigit then pyDigitsTail (10 * acc + digitVal c) cs
    else if c = '_' then
      match cs with
      | d :: cs' => if d.isDigit then pyDigitsTail (10 * acc + digitVal d) cs' else none
      | [] => none
    else none

/-- Parse the signed body of a Python integer literal: an optional single
`+` or `-` sign followed by a nonempty digit sequence (underscore rule as in
`pyDigitsTail`). -/
def pyIntBody : List Char → Option Int
  | [] => none
  | c :: cs =>
    if c = '-' then (pyIntDigits cs).map (fun n => -(n : Int))
    else if c = '+' then (pyIntDigits cs).map (fun n => (n : Int))
    else (pyIntDigits (c :: cs)).map (fun n => (n : Int))
where
  pyIntDigits : List Char → Option Nat
    | [] => none
    | d :: ds => if d.isDigit then pyDigitsTail (digitVal d) ds else none

/-- Python `int(s)` on a string (base 10, ASCII): strips surrounding
whitespace, then an optional sign and a nonempty digit run; `none` models the
`ValueError` branch of the source. -/
def pyInt (s : String) : Option Int := pyIntBody (stripChars s.toList)

/-- One row of the pincode dataset (`pincodes.csv` after the loader lowercases
the column names).  All text columns are strings; `pincode` is integral; the
two coordinate columns are nullable (`none` models a NaN cell, the case
`pd.notna` rejects), carried as their rendered numeric text since the program
only ever tests their presence and splices them verbatim into URLs. -/
structure Record where
  circlename : String
  regionname : String
  divisionname : String
  officename : String
  pincode : Int
  officetype : String
  delivery : String
  district : String
  statename : String
  latitude : Option String
  longitude : Option String
deriving DecidableEq, Repr, Inhabited

/-!
`pandas.Series.str.contains(pat)` treats `pat` as a regular expression and
reports `re.search(pat, cell) is not None` for each cell.  We model the
fragment of Python regex syntax the theorems exercise: patterns whose
characters are all literals or `.` (the any-character-but-newline wildcard).
Patterns using any other regex metacharacter are outside the modelled
fragment; `str_contains` maps them to `Except.error`, merging Python's
`re.error` patterns with valid-but-unmodelled syntax.  Every theorem below
either fixes a concrete pattern inside the fragment or restricts to
metacharacter-free patterns, so no claim's truth value depends on the merge.
-/

/-- The characters that are metacharacters of Python regular expressions. -/
def reMetaChars : List Char :=
  ['.', '^', '$', '*', '+', '?', Char.ofNat 123, Char.ofNat 125,
   '[', ']', '\\', '|', '(', ')']

/-- The pattern lies in the modelled regex fragment: every character is `.` or
a non-metacharacter literal. -/
def reModelled (p : List Char) : Bool :=
  p.all (fun c => c = '.' || !(reMetaChars.contains c))

/-- The pattern is a pure literal: no regex metacharacter at all (so Python
matches it exactly like plain substring search). -/
def reLiteral (p : List Char) : Bool :=
  p.all (fun c => !(reMetaChars.contains c))

/-- Match a fragment pattern against the front of `s`: each pattern character
must match the corresponding character of `s`, `.` matching any character
except a newline. -/
def reMatchHere : List Char → List Char → Bool
  | [], _ => true
  | _ :: _, [] => false
  | c :: p, x :: s =>
    (if c = '.' then decide (x ≠ '\n') else decide (c = x)) && reMatchHere p s

/-- Python `re.search` for a fragment pattern: try to match at each successive
start position of `s`. -/
def reSearch (p : List Char) (s : List Char) : Bool :=
  reMatchHere p s ||
    match s with
    | [] => false
    | _ :: s' => reSearch p s'

/-- `Series.str.contains(pat)` applied to one cell, for a pattern already
known to lie in the modelled fragment. -/
def str_contains (pat : String) (cell : String) : Bool :=
  reSearch pat.toList cell.toList

/-- The body of `search_pincode` (the outer `try` block): exact pincode
filter when `int(query)` succeeds, else regex containment across the
lowercased `officename`, `district` and `statename` columns.  pandas compiles
the pattern once for the whole column, so an unusable pattern fails the whole
filter uniformly: `Except.error` models the exception pandas raises. -/
def search_body (df : List Record) (query : String) : Except String (List Record) :=
  match pyInt query with
  | some pincode => Except.ok (df.filter (fun r => r.pincode == pincode))
  | none =>
    let q := pyLower query
    if reModelled q.toList then
      Except.ok (df.filter (fun r =>
        str_contains q (pyLower r.officename) ||
        str_contains q (pyLower r.district) ||
        str_contains q (pyLower r.statename)))
    else Except.error "pattern outside the modelled regex fragment"

/-- `search_pincode(query)`: the `try`/`except` wrapper around `search_body`
that logs and swallows any exception, returning the empty result list. -/
def search_pincode (df : List Record) (query : String) : List Record :=
  match search_body df query with
  | Except.ok l => l
  | Except.error _ => []

/-- The `ICONS` dictionary of the source: category icon glyph per field label.
The program only looks up the ten keys listed here; the `""` default stands
for the `KeyError` branch that is never reached. -/
def ICONS (k : String) : String :=
  if k = "pincode" then "📌"
  else if k = "office" then "🏢"
  else if k = "type" then "🏷️"
  else if k = "delivery" then "📦"
  else if k = "circle" then "🔵"
  else if k = "region" then "🗺️"
  else if k = "division" then "🏛️"
  else if k = "district" then "📍"
  else if k = "state" then "🏳️"
  else if k = "location" then "🌐"
  else ""

/-- The Google-Maps URL built by both renderers when a row has coordinates. -/
def mapsUrl (lat lon : String) : String :=
  "https://www.google.com/maps?q=" ++ lat ++ "," ++ lon

/-- `format_result(result, index)`: the list `lines` the source accumulates —
optional header when `index` is not `None`, the nine icon-labelled fields in
source order, then the map link exactly when both coordinates are non-null. -/
def format_result_lines (result : Record) (index : Option Nat) : List String :=
  (match index with
   | some i => ["🔹 <b>Result " ++ toString (i + 1) ++ "</b>"]
   | none => []) ++
  [ICONS "pincode" ++ " <b>Pincode:</b> " ++ toString result.pincode,
   ICONS "office" ++ " <b>Office:</b> " ++ result.officename,
   ICONS "type" ++ " <b>Type:</b> " ++ result.officetype,
   ICONS "delivery" ++ " <b>Delivery:</b> " ++ result.delivery,
   ICONS "circle" ++ " <b>Circle:</b> " ++ result.circlename,
   ICONS "region" ++ " <b>Region:</b> " ++ result.regionname,
   ICONS "division" ++ " <b>Division:</b> " ++ result.divisionname,
   ICONS "district" ++ " <b>District:</b> " ++ result.district,
   ICONS "state" ++ " <b>State:</b> " ++ result.statename] ++
  (match result.latitude, result.longitude with
   | some lat, some lon =>
     [ICONS "location" ++ " <a href=\x27" ++ mapsUrl lat lon ++
      "\x27>View on Google Maps</a>"]
   | _, _ => [])

/-- `format_result` returns `"\n".join(lines)`. -/
def format_result (result : Record) (index : Option Nat) : String :=
  String.intercalate "\n" (format_result_lines result index)

/-- The body of `create_pdf`'s `for i, result in enumerate(results)` loop:
the sequence of `pdf.cell` texts it emits from position `i` onward.  A PDF is
modelled as the ordered list of its cell texts (fonts, geometry and page
breaks are presentation only). -/
def create_pdf_loop : Nat → List Record → List String
  | _, [] => []
  | i, result :: rest =>
    ["Result " ++ toString (i + 1),
     "Pincode: " ++ toString result.pincode,
     "Office: " ++ result.officename,
     "Type: " ++ result.officetype,
     "Delivery: " ++ result.delivery,
     "Circle: " ++ result.circlename,
     "Region: " ++ result.regionname,
     "Division: " ++ result.divisionname,
     "District: " ++ result.district,
     "State: " ++ result.statename] ++
    (match result.latitude, result.longitude with
     | some lat, some lon => ["Google Maps: " ++ mapsUrl lat lon]
     | _, _ => []) ++
    create_pdf_loop (i + 1) rest

/-- `create_pdf(results, query)`: the document's cell texts (title, query
line, then the loop) and the path the PDF is saved under. -/
def create_pdf (results : List Record) (query : String) : List String × String :=
  (["Indian Pincode Search Results", "Search Query: " ++ query] ++
     create_pdf_loop 0 results,
   "pincode_results_" ++ query ++ ".pdf")

/-- An outbound chat message: its text, and the callback data of the inline
"Export to PDF" button when one is attached (`reply_markup`). -/
structure Sent where
  text : String
  callbackData : Option String
deriving DecidableEq, Repr

/-- The per-user session the handler keeps in `context.user_data`:
`last_query` and `last_results`.  `none` models a user context with neither
key set. -/
structure SessionData where
  last_query : String
  last_results : List Record
deriving DecidableEq, Repr

/-- The message loop of `handle_search` over `results[:5]`: `shownLen` is
`len(results[:5])`, `total` is `len(results)`, `i` the running index.  The
last shown message gets the "Showing 5 of N" note (when more exist), the PDF
export prompt and the inline button. -/
def handle_search_loop (query : String) (shownLen total : Nat) :
    Nat → List Record → List Sent
  | _, [] => []
  | i, result :: rest =>
    (if i = shownLen - 1 then
      { text := format_result result (some i) ++
          (if total > 5 then
            "\n\nℹ️ Showing 5 of " ++ toString total ++ " results."
          else "") ++
          "\n\n📄 You can export all results to PDF:",
        callbackData := some ("pdf_export:" ++ query) }
    else
      { text := format_result result (some i), callbackData := none }) ::
    handle_search_loop query shownLen total (i + 1) rest

/-- `handle_search(update, context)`: strips the inbound text, rejects the
empty query, runs the search, rejects the empty result, stores the session,
sends up to five result messages, and appends the "more results" notice when
over five.  Returns the outbound messages and the session state after the
handler. -/
def handle_search (df : List Record) (text : String)
    (ud : Option SessionData) : List Sent × Option SessionData :=
  let query := pyStrip text
  if query = "" then
    ([{ text := "Please enter a pincode or location name to search.",
        callbackData := none }], ud)
  else
    let results := search_pincode df query
    if results = [] then
      ([{ text := "❌ No results found. Please try a different query.",
          callbackData := none }], ud)
    else
      let shown := results.take 5
      (handle_search_loop query shown.length results.length 0 shown ++
        (if results.length > 5 then
          [{ text := "ℹ️ There are more results (" ++ toString results.length ++
               " total). Please refine your search for better results.",
             callbackData := none }]
        else []),
       some { last_query := query, last_results := results })

/-- Failure points of the export handler's external calls: `atCreate` models
an exception inside `create_pdf` before `pdf.output` writes the file,
`atSend` an exception while opening or sending the already-written file. -/
inductive ExportFail where
  | atCreate
  | atSend
deriving DecidableEq, Repr

/-- The observable outcome of `export_pdf`: the `edit_message_text` call if
any, the document handed to the transport if any (by filename), the
`reply_text` calls, and the temporary files still on disk when the handler
returns. -/
structure ExportOutcome where
  editedText : Option String
  sentDocument : Option String
  replyTexts : List String
  tempFiles : List String
deriving DecidableEq, Repr

/-- `export_pdf(update, context)`.  `original_query` is the query carried in
the callback data after `"pdf_export:"` (the transport guarantees the prefix
via the handler's pattern).  `results` is `user_data.get('last_results', [])`.
`fail` injects where an external call raises; the `try`/`except` logs, sends
the generic failure text, and returns — `os.remove` sits inside the `try`
after the send, so it only runs when nothing raised. -/
def export_pdf (ud : Option SessionData) (original_query : String)
    (fail : Option ExportFail) : ExportOutcome :=
  let results := (ud.map (fun s => s.last_results)).getD []
  if results = [] then
    { editedText := some ("Sorry, I couldn\x27t find those results anymore. " ++
        "Please perform a new search."),
      sentDocument := none, replyTexts := [], tempFiles := [] }
  else
    match fail with
    | some ExportFail.atCreate =>
      { editedText := none, sentDocument := none,
        replyTexts := ["❌ Sorry, there was an error generating the PDF. " ++
          "Please try again."],
        tempFiles := [] }
    | some ExportFail.atSend =>
      { editedText := none, sentDocument := none,
        replyTexts := ["❌ Sorry, there was an error generating the PDF. " ++
          "Please try again."],
        tempFiles := [(create_pdf results original_query).2] }
    | none =>
      { editedText := none,
        sentDocument := some ("pincode_results_" ++ original_query ++ ".pdf"),
        replyTexts := [], tempFiles := [] }

/-!
Sample rows used by witnesses (values representative of `pincodes.csv`).
-/

/-- A row with both coordinates present. -/
def rec1 : Record :=
  { circlename := "Delhi", regionname := "Delhi",
    divisionname := "New Delhi Central", officename := "New Delhi GPO",
    pincode := 110001, officetype := "HO", delivery := "Delivery",
    district := "New Delhi", statename := "Delhi",
    latitude := some "28.63", longitude := some "77.21" }

/-- A row with both coordinates absent (NaN cells). -/
def rec2 : Record :=
  { circlename := "Karnataka", regionname := "Bangalore HQ",
    divisionname := "Bangalore East", officename := "Bangalore GPO",
    pincode := 560001, officetype := "HO", delivery := "Delivery",
    district := "Bangalore", statename := "Karnataka",
    latitude := none, longitude := none }

/-!
Literal regex patterns behave as plain substring search.
-/

/-- A literal pattern is inside the modelled fragment. -/
theorem reLiteral_reModelled {p : List Char} (h : reLiteral p = true) :
    reModelled p = true := by
  simp only [reLiteral, List.all_eq_true] at h
  simp only [reModelled, List.all_eq_true]
  intro c hc
  have hc2 : ¬ (c ∈ reMetaChars) := by simpa using h c hc
  simp [hc2]

/-- A literal pattern matches at the front of `s` exactly when it is a prefix
of `s`. -/
theorem reMatchHere_literal {p : List Char} (h : reLiteral p = true)
    (s : List Char) : reMatchHere p s = true ↔ p <+: s := by
  induction p generalizing s with
  | nil => simp [reMatchHere]
  | cons c p ih =>
    simp only [reLiteral, List.all_cons, Bool.and_eq_true] at h
    have hdot : c ≠ '.' := by
      intro hEq
      subst hEq
      simp [reMetaChars] at h
    have hp : reLiteral p = true := by
      simpa [reLiteral] using h.2
    cases s with
    | nil => simp [reMatchHere]
    | cons x s =>
      simp [reMatchHere, hdot, ih hp, List.cons_prefix_cons]

/-- A literal pattern is found by `reSearch` exactly when it is an infix. -/
theorem reSearch_literal {p : List Char} (h : reLiteral p = true)
    (s : List Char) : reSearch p s = true ↔ p <:+: s := by
  induction s with
  | nil =>
    rw [reSearch]
    simp [reMatchHere_literal h]
  | cons x s ih =>
    rw [reSearch]
    simp only [Bool.or_eq_true, reMatchHere_literal h, ih]
    exact (List.infix_cons_iff).symm

/-- Boolean form of `reSearch_literal`. -/
theorem reSearch_literal_eq {p : List Char} (h : reLiteral p = true)
    (s : List Char) : reSearch p s = decide (p <:+: s) := by
  have h2 := reSearch_literal h s
  by_cases hI : p <:+: s <;> simp [hI] at h2 ⊢ <;> exact h2

/-- C1.  For every query string that parses as a base-10 integer,
`search_pincode` returns exactly the records of the dataset whose postal code
equals the parsed integer, and the returned records appear in the dataset's
original row order. -/
theorem search_int_query (df : List Record) (q : String) (n : Int)
    (h : pyInt q = some n) :
    search_pincode df q = df.filter (fun r => r.pincode == n) ∧
    List.Sublist (search_pincode df q) df ∧
    ∀ r : Record, r ∈ search_pincode df q ↔ r ∈ df ∧ r.pincode = n := by
  have hs : search_pincode df q = df.filter (fun r => r.pincode == n) := by
    unfold search_pincode search_body
    rw [h]
  refine ⟨hs, ?_, ?_⟩
  · rw [hs]
    exact List.filter_sublist df
  · intro r
    rw [hs]
    simp [List.mem_filter]

/-- Witness for C1: query `"110001"` parses and returns exactly the matching
row, first of the two-row dataset. -/
theorem search_int_query_witness :
    pyInt "110001" = some 110001 ∧
    search_pincode [rec1, rec2] "110001" =
      [rec1, rec2].filter (fun r => r.pincode == 110001) ∧
    search_pincode [rec1, rec2] "110001" = [rec1] :=
  ⟨by decide, (search_int_query [rec1, rec2] "110001" 110001 (by decide)).1,
   by decide⟩

/-- C2 counterexample.  The query `"d.lhi"` does not parse as an integer and
is not a plain substring of any of the three lowercased text fields of
`rec1`, yet `search_pincode` returns the row: pandas `str.contains`
interprets the query as a regular expression (`.` matches the `e`), not as
plain containment.  This refutes the claim that search returns exactly the
plain-substring matches. -/
theorem search_text_query_counterexample :
    pyInt "d.lhi" = none ∧
    search_pincode [rec1] "d.lhi" = [rec1] ∧
    ¬ ((pyLower "d.lhi").toList <:+: (pyLower rec1.officename).toList ∨
       (pyLower "d.lhi").toList <:+: (pyLower rec1.district).toList ∨
       (pyLower "d.lhi").toList <:+: (pyLower rec1.statename).toList) := by
  decide

/-- C2 amended.  For every query that does not parse as an integer and whose
lowercased form contains no regex metacharacter, `search_pincode` returns
exactly the records where the lowercased office name, district or state name
contains the lowercased query as a plain substring, each matching row exactly
once, in original dataset order (a sublist of the dataset).  For queries
containing metacharacters the code instead performs a regex search. -/
theorem search_text_query_literal (df : List Record) (q : String)
    (hp : pyInt q = none) (hl : reLiteral (pyLower q).toList = true) :
    search_pincode df q = df.filter (fun r =>
      decide ((pyLower q).toList <:+: (pyLower r.officename).toList) ||
      decide ((pyLower q).toList <:+: (pyLower r.district).toList) ||
      decide ((pyLower q).toList <:+: (pyLower r.statename).toList)) ∧
    List.Sublist (search_pincode df q) df := by
  have hm : reModelled (pyLower q).toList = true := reLiteral_reModelled hl
  have hs : search_pincode df q = df.filter (fun r =>
      str_contains (pyLower q) (pyLower r.officename) ||
      str_contains (pyLower q) (pyLower r.district) ||
      str_contains (pyLower q) (pyLower r.statename)) := by
    unfold search_pincode search_body
    rw [hp]
    simp only [hm, if_pos]
  constructor
  · rw [hs]
    apply List.filter_congr
    intro r _
    simp only [str_contains, reSearch_literal_eq hl]
  · rw [hs]
    exact List.filter_sublist df

/-- Witness for C2: the metacharacter-free query `"delhi"` returns exactly
the plain-substring matches of the two-row dataset. -/
theorem search_text_query_literal_witness :
    pyInt "delhi" = none ∧
    reLiteral (pyLower "delhi").toList = true ∧
    search_pincode [rec1, rec2] "delhi" = [rec1, rec2].filter (fun r =>
      decide ((pyLower "delhi").toList <:+: (pyLower r.officename).toList) ||
      decide ((pyLower "delhi").toList <:+: (pyLower r.district).toList) ||
      decide ((pyLower "delhi").toList <:+: (pyLower r.statename).toList)) ∧
    search_pincode [rec1, rec2] "delhi" = [rec1] :=
  ⟨by decide, by decide,
   (search_text_query_literal [rec1, rec2] "delhi" (by decide) (by decide)).1,
   by decide⟩

/-- C3.  `search_pincode` is a total function into record lists: its body
either succeeds, in which case the result is the body's list, or raises, in
which case the exception is swallowed and the result is the empty list. -/
theorem search_never_raises (df : List Record) (q : String) :
    (∃ l, search_body df q = Except.ok l ∧ search_pincode df q = l) ∨
    (∃ e, search_body df q = Except.error e ∧ search_pincode df q = []) := by
  cases h : search_body df q with
  | ok l => exact Or.inl ⟨l, rfl, by simp [search_pincode, h]⟩
  | error e => exact Or.inr ⟨e, rfl, by simp [search_pincode, h]⟩

/-- C4.  `format_result` emits exactly nine labeled fields in the fixed order
pincode, office, type, delivery, circle, region, division, district, state
(after the optional header), appends the map-link line built from
`https://www.google.com/maps?q=<lat>,<lon>` exactly when both coordinates are
present and omits it entirely otherwise, and returns the newline join of
those lines. -/
theorem format_result_structure (r : Record) (idx : Option Nat) :
    ((format_result_lines r idx).take (if idx.isSome then 1 else 0) =
      match idx with
      | some i => ["🔹 <b>Result " ++ toString (i + 1) ++ "</b>"]
      | none => []) ∧
    (((format_result_lines r idx).drop (if idx.isSome then 1 else 0)).take 9 =
      ["📌 <b>Pincode:</b> " ++ toString r.pincode,
       "🏢 <b>Office:</b> " ++ r.officename,
       "🏷️ <b>Type:</b> " ++ r.officetype,
       "📦 <b>Delivery:</b> " ++ r.delivery,
       "🔵 <b>Circle:</b> " ++ r.circlename,
       "🗺️ <b>Region:</b> " ++ r.regionname,
       "🏛️ <b>Division:</b> " ++ r.divisionname,
       "📍 <b>District:</b> " ++ r.district,
       "🏳️ <b>State:</b> " ++ r.statename]) ∧
    ((format_result_lines r idx).drop ((if idx.isSome then 1 else 0) + 9) =
      match r.latitude, r.longitude with
      | some lat, some lon =>
        ["🌐 <a href=\x27" ++
         ("https://www.google.com/maps?q=" ++ lat ++ "," ++ lon) ++
         "\x27>View on Google Maps</a>"]
      | _, _ => []) ∧
    ((format_result_lines r idx).length =
      (if idx.isSome then 1 else 0) + 9 +
        (if r.latitude.isSome && r.longitude.isSome then 1 else 0)) ∧
    (format_result r idx = String.intercalate "\n" (format_result_lines r idx)) := by
  obtain ⟨cn, rn, dvn, ofn, pc, ot, dl, di, sn, la, lo⟩ := r
  cases idx <;> cases la <;> cases lo <;>
    exact ⟨rfl, rfl, rfl, rfl, rfl⟩

/-- The body of `create_pdf`'s per-record loop: header, the nine plain-text
fields in fixed order, and the map-link line exactly when both coordinates
are present. -/
def pdfBlock (i : Nat) (r : Record) : List String :=
  ["Result " ++ toString (i + 1),
   "Pincode: " ++ toString r.pincode,
   "Office: " ++ r.officename,
   "Type: " ++ r.officetype,
   "Delivery: " ++ r.delivery,
   "Circle: " ++ r.circlename,
   "Region: " ++ r.regionname,
   "Division: " ++ r.divisionname,
   "District: " ++ r.district,
   "State: " ++ r.statename] ++
  (match r.latitude, r.longitude with
   | some lat, some lon =>
     ["Google Maps: https://www.google.com/maps?q=" ++ lat ++ "," ++ lon]
   | _, _ => [])

/-- The PDF loop emits one `pdfBlock` per record, in input order, numbering
from `i`. -/
theorem create_pdf_loop_blocks (l : List Record) :
    ∀ i : Nat, create_pdf_loop i l =
      (l.enumFrom i).flatMap (fun p => pdfBlock p.1 p.2) := by
  induction l with
  | nil => intro i; rfl
  | cons r rest ih =>
    intro i
    have hstep : create_pdf_loop i (r :: rest) =
        pdfBlock i r ++ create_pdf_loop (i + 1) rest := by
      obtain ⟨cn, rn, dvn, ofn, pc, ot, dl, di, sn, la, lo⟩ := r
      cases la <;> cases lo <;> rfl
    rw [hstep, ih (i + 1)]
    simp [List.enumFrom]

/-- C5.  `create_pdf` emits a title cell, the query cell, and then exactly
one block per input record in input order — with no cap on the number of
blocks — each block being the nine plain-text labeled fields in fixed order
plus the map-link line exactly when both coordinates are present; the file is
saved under `pincode_results_<query>.pdf`. -/
theorem create_pdf_blocks (results : List Record) (query : String) :
    (create_pdf results query).1 =
      ["Indian Pincode Search Results", "Search Query: " ++ query] ++
        results.enum.flatMap (fun p => pdfBlock p.1 p.2) ∧
    (create_pdf results query).2 = "pincode_results_" ++ query ++ ".pdf" := by
  refine ⟨?_, rfl⟩
  simp [create_pdf, create_pdf_loop_blocks results 0, List.enum]

/-- The message the handler loop sends for the record at index `i`: the
formatted result, with the "Showing 5 of N" note (when more than five exist)
and the export button attached to the last shown message. -/
def loopMsg (query : String) (shownLen total i : Nat) (result : Record) : Sent :=
  if i = shownLen - 1 then
    { text := format_result result (some i) ++
        (if total > 5 then
          "\n\nℹ️ Showing 5 of " ++ toString total ++ " results."
        else "") ++
        "\n\n📄 You can export all results to PDF:",
      callbackData := some ("pdf_export:" ++ query) }
  else
    { text := format_result result (some i), callbackData := none }

/-- The handler loop sends one message per shown record. -/
theorem handle_search_loop_length (query : String) (shownLen total : Nat) :
    ∀ (j : Nat) (l : List Record),
      (handle_search_loop query shownLen total j l).length = l.length := by
  intro j l
  induction l generalizing j with
  | nil => rfl
  | cons r rest ih => simp [handle_search_loop, ih]

/-- The `i`-th message of the handler loop started at index `j` is `loopMsg`
applied to the `i`-th remaining record at overall index `j + i`. -/
theorem handle_search_loop_getElem (query : String) (shownLen total : Nat) :
    ∀ (l : List Record) (j i : Nat),
      (handle_search_loop query shownLen total j l)[i]? =
        (l[i]?).map (fun r => loopMsg query shownLen total (j + i) r) := by
  intro l
  induction l with
  | nil => intro j i; simp [handle_search_loop]
  | cons r rest ih =>
    intro j i
    cases i with
    | zero => simp [handle_search_loop, loopMsg]
    | succ i =>
      simp only [handle_search_loop, List.getElem?_cons_succ, ih (j + 1) i]
      have harith : j + 1 + i = j + (i + 1) := by omega
      rw [harith]

/-- C6.  For every search, at most five results are rendered as chat
messages.  A search with no results sends only the no-results message.  A
search with at least one result sends exactly `min 5 n` result messages
(the record at index `i` formatted with 1-based header `i + 1`), the last of
them carrying the "Showing 5 of N results." note exactly when `n > 5`
together with the export button, followed by exactly one informational
notice message exactly when `n > 5` — so a 7-record result set renders
exactly 5 text messages with the "5 of 7" notice plus the notice message. -/
theorem handle_search_five_cap (df : List Record) (text : String)
    (ud : Option SessionData) (hq : pyStrip text ≠ "") :
    (search_pincode df (pyStrip text) = [] →
      (handle_search df text ud).1 =
        [(⟨"❌ No results found. Please try a different query.", none⟩ : Sent)]) ∧
    (search_pincode df (pyStrip text) ≠ [] →
      (((handle_search df text ud).1).length =
        min 5 (List.length (search_pincode df (pyStrip text))) +
          (if 5 < List.length (search_pincode df (pyStrip text)) then 1
           else 0)) ∧
      (min 5 (List.length (search_pincode df (pyStrip text))) ≤ 5) ∧
      (∀ i : Nat,
        i + 1 < min 5 (List.length (search_pincode df (pyStrip text))) →
        ((handle_search df text ud).1)[i]? =
          ((search_pincode df (pyStrip text))[i]?).map
            (fun r => (⟨format_result r (some i), none⟩ : Sent))) ∧
      (((handle_search df text ud).1)[min 5
          (List.length (search_pincode df (pyStrip text))) - 1]? =
        ((search_pincode df (pyStrip text))[min 5
            (List.length (search_pincode df (pyStrip text))) - 1]?).map
          (fun r => (⟨format_result r (some (min 5
                (List.length (search_pincode df (pyStrip text))) - 1)) ++
              (if List.length (search_pincode df (pyStrip text)) > 5 then
                "\n\nℹ️ Showing 5 of " ++
                  toString (List.length (search_pincode df (pyStrip text))) ++
                  " results."
              else "") ++
              "\n\n📄 You can export all results to PDF:",
            some ("pdf_export:" ++ pyStrip text)⟩ : Sent))) ∧
      (5 < List.length (search_pincode df (pyStrip text)) →
        ((handle_search df text ud).1)[5]? =
          some (⟨"ℹ️ There are more results (" ++
              toString (List.length (search_pincode df (pyStrip text))) ++
              " total). Please refine your search for better results.",
            none⟩ : Sent))) := by
  constructor
  · intro hr0
    simp [handle_search, hq, hr0]
  · intro hr
    have hn : 0 < List.length (search_pincode df (pyStrip text)) :=
      List.length_pos.mpr hr
    have hmain : (handle_search df text ud).1 =
        handle_search_loop (pyStrip text)
          ((search_pincode df (pyStrip text)).take 5).length
          (List.length (search_pincode df (pyStrip text))) 0
          ((search_pincode df (pyStrip text)).take 5) ++
        (if 5 < List.length (search_pincode df (pyStrip text)) then
          [(⟨"ℹ️ There are more results (" ++
              toString (List.length (search_pincode df (pyStrip text))) ++
              " total). Please refine your search for better results.",
            none⟩ : Sent)]
        else []) := by
      simp [handle_search, hq, hr]
    have hlen : ((search_pincode df (pyStrip text)).take 5).length =
        min 5 (List.length (search_pincode df (pyStrip text))) := by
      rw [List.length_take]
    have hlooplen : (handle_search_loop (pyStrip text)
        ((search_pincode df (pyStrip text)).take 5).length
        (List.length (search_pincode df (pyStrip text))) 0
        ((search_pincode df (pyStrip text)).take 5)).length =
        min 5 (List.length (search_pincode df (pyStrip text))) := by
      rw [handle_search_loop_length, hlen]
    refine ⟨?_, ?_, ?_, ?_, ?_⟩
    · rw [hmain, List.length_append, hlooplen]
      by_cases h5 : 5 < List.length (search_pincode df (pyStrip text)) <;>
        simp [h5]
    · omega
    · intro i hi
      rw [hmain, List.getElem?_append]
      rw [if_pos (by rw [hlooplen]; omega)]
      rw [handle_search_loop_getElem]
      have hmsg : ∀ r, loopMsg (pyStrip text)
          ((search_pincode df (pyStrip text)).take 5).length
          (List.length (search_pincode df (pyStrip text))) (0 + i) r =
          (⟨format_result r (some i), none⟩ : Sent) := by
        intro r
        rw [loopMsg, if_neg (by rw [hlen]; omega)]
        simp
      simp only [hmsg, List.getElem?_take, if_pos (show i < 5 by omega)]
    · rw [hmain, List.getElem?_append]
      rw [if_pos (by rw [hlooplen]; omega)]
      rw [handle_search_loop_getElem]
      have hmsg : ∀ r, loopMsg (pyStrip text)
          ((search_pincode df (pyStrip text)).take 5).length
          (List.length (search_pincode df (pyStrip text)))
          (0 + (min 5 (List.length (search_pincode df (pyStrip text))) - 1))
          r =
          (⟨format_result r (some (min 5
              (List.length (search_pincode df (pyStrip text))) - 1)) ++
            (if List.length (search_pincode df (pyStrip text)) > 5 then
              "\n\nℹ️ Showing 5 of " ++
                toString (List.length (search_pincode df (pyStrip text))) ++
                " results."
            else "") ++
            "\n\n📄 You can export all results to PDF:",
          some ("pdf_export:" ++ pyStrip text)⟩ : Sent) := by
        intro r
        rw [loopMsg, if_pos (by rw [hlen]; omega)]
        rw [Nat.zero_add]
      simp only [hmsg, List.getElem?_take,
        if_pos (show min 5
          (List.length (search_pincode df (pyStrip text))) - 1 < 5 by omega)]
    · intro h5
      rw [hmain, List.getElem?_append]
      rw [if_neg (by rw [hlooplen]; omega)]
      rw [hlooplen, if_pos h5]
      rw [show min 5 (List.length (search_pincode df (pyStrip text))) = 5
        by omega]
      rfl

/-- Witness for C6: a 7-row result set renders `min 5 7 = 5` result messages
plus the notice (6 messages), and a 1-row result set renders exactly 1
message. -/
theorem handle_search_five_cap_witness :
    pyStrip "110001" ≠ "" ∧
    search_pincode [rec1, rec1, rec1, rec1, rec1, rec1, rec1] "110001" ≠ [] ∧
    search_pincode [rec1] "110001" ≠ [] ∧
    ((handle_search [rec1, rec1, rec1, rec1, rec1, rec1, rec1] "110001" none).1).length =
      min 5 (List.length (search_pincode [rec1, rec1, rec1, rec1, rec1, rec1, rec1] "110001")) +
        (if 5 < List.length (search_pincode [rec1, rec1, rec1, rec1, rec1, rec1, rec1] "110001") then 1
         else 0) ∧
    ((handle_search [rec1] "110001" none).1).length =
      min 5 (List.length (search_pincode [rec1] "110001")) +
        (if 5 < List.length (search_pincode [rec1] "110001") then 1 else 0) :=
  ⟨by decide, by decide, by decide,
   ((handle_search_five_cap [rec1, rec1, rec1, rec1, rec1, rec1, rec1]
     "110001" none (by decide)).2 (by decide)).1,
   ((handle_search_five_cap [rec1] "110001" none (by decide)).2
     (by decide)).1⟩

/-- A stored session from an earlier search, used by counterexamples. -/
def sessOld : SessionData := { last_query := "old", last_results := [rec2] }

/-- C8 counterexample.  A search whose result set is empty completes without
touching the session: with `rec2`'s session stored, searching `"999999"`
against a dataset that has no such pincode leaves the old session in place,
so after this search the session does not hold the search's query and
results, refuting the claim that every search overwrites the session. -/
theorem session_overwrite_counterexample :
    pyStrip "999999" ≠ "" ∧
    search_pincode [rec1] "999999" = [] ∧
    (handle_search [rec1] "999999" (some sessOld)).2 = some sessOld ∧
    (handle_search [rec1] "999999" (some sessOld)).2 ≠
      some { last_query := "999999",
             last_results := search_pincode [rec1] "999999" } := by
  decide

/-- C8 amended.  After any search that yields at least one result, the
requester's session holds exactly that search's query and full result list;
a search with no results (and a rejected empty query) leaves the previous
session unchanged. -/
theorem session_overwritten (df : List Record) (text : String)
    (ud : Option SessionData) (hq : pyStrip text ≠ "")
    (hr : search_pincode df (pyStrip text) ≠ []) :
    (handle_search df text ud).2 =
      some { last_query := pyStrip text,
             last_results := search_pincode df (pyStrip text) } := by
  simp [handle_search, hq, hr]

/-- Witness for C8: a successful search stores its query and results. -/
theorem session_overwritten_witness :
    pyStrip "110001" ≠ "" ∧
    search_pincode [rec1] "110001" ≠ [] ∧
    (handle_search [rec1] "110001" none).2 =
      some { last_query := pyStrip "110001",
             last_results := search_pincode [rec1] "110001" } :=
  ⟨by decide, by decide, session_overwritten [rec1] "110001" none
    (by decide) (by decide)⟩

/-- The empty-result branch also leaves the session unchanged (companion to
`session_overwritten`, shared with no claim). -/
theorem session_unchanged_on_empty (df : List Record) (text : String)
    (ud : Option SessionData) (hr : search_pincode df (pyStrip text) = []) :
    (handle_search df text ud).2 = ud := by
  by_cases hq : pyStrip text = "" <;> simp [handle_search, hq, hr]

/-- C10.  The inbound text is stripped of surrounding whitespace before the
emptiness check: a whitespace-only message behaves exactly like the empty
message — the handler replies with the re-enter prompt, leaves the session
unchanged, and never consults the dataset (the outcome is independent of
`df`), so `search_pincode` is only ever invoked on a stripped, nonempty
query. -/
theorem whitespace_query_rejected (df : List Record) (text : String)
    (ud : Option SessionData) (h : pyStrip text = "") :
    handle_search df text ud =
      ([{ text := "Please enter a pincode or location name to search.",
          callbackData := none }], ud) ∧
    handle_search df text ud = handle_search df "" ud ∧
    handle_search df text ud = handle_search [] text ud := by
  have h0 : pyStrip "" = "" := by decide
  refine ⟨?_, ?_, ?_⟩ <;> simp [handle_search, h, h0]

/-- Witness for C10: a message of spaces, a tab and a newline is rejected
with the re-enter prompt without touching the stored session. -/
theorem whitespace_query_rejected_witness :
    pyStrip " \t\n " = "" ∧
    handle_search [rec1] " \t\n " (some sessOld) =
      ([{ text := "Please enter a pincode or location name to search.",
          callbackData := none }], some sessOld) :=
  ⟨by decide,
   (whitespace_query_rejected [rec1] " \t\n " (some sessOld) (by decide)).1⟩

/-- C7 counterexample.  With a stored one-row session, an export whose
hand-off to the transport fails leaves the temporary PDF on disk: `os.remove`
sits inside the `try` block after the send, so the failure path never reaches
it.  This refutes the claim that cleanup is attempted on the failure path. -/
theorem export_cleanup_counterexample :
    (export_pdf (some { last_query := "delhi", last_results := [rec1] })
        "delhi" (some ExportFail.atSend)).tempFiles =
      ["pincode_results_delhi.pdf"] ∧
    (export_pdf (some { last_query := "delhi", last_results := [rec1] })
        "delhi" (some ExportFail.atSend)).tempFiles ≠ [] := by
  decide

/-- C7 amended.  The temporary file is removed on the success path, and a
failure inside document generation leaves no file behind (none was written
yet); but when the hand-off fails after the file has been written, no cleanup
is attempted and the file remains on disk. -/
theorem export_cleanup (ud : Option SessionData) (q : String)
    (s : SessionData) (h : ud = some s) (hr : s.last_results ≠ []) :
    (export_pdf ud q none).tempFiles = [] ∧
    (export_pdf ud q none).sentDocument =
      some ("pincode_results_" ++ q ++ ".pdf") ∧
    (export_pdf ud q (some ExportFail.atCreate)).tempFiles = [] ∧
    (export_pdf ud q (some ExportFail.atSend)).tempFiles =
      [(create_pdf s.last_results q).2] := by
  subst h
  refine ⟨?_, ?_, ?_, ?_⟩ <;> simp [export_pdf, hr]

/-- Witness for C7 (amended): a successful export of a one-row session sends
the document and leaves no temporary file. -/
theorem export_cleanup_witness :
    sessOld.last_results ≠ [] ∧
    (export_pdf (some sessOld) "old" none).tempFiles = [] :=
  ⟨by decide,
   (export_cleanup (some sessOld) "old" sessOld rfl (by decide)).1⟩

/-- C9.  When no session is stored for the requester — no recorded search,
or recorded results that are empty — the export trigger produces no document,
leaves no file, sends no document message, and replies by editing the message
to the "please perform a new search" text; the handler returns normally. -/
theorem export_no_session (ud : Option SessionData) (q : String)
    (fail : Option ExportFail)
    (h : (ud.map (fun s => s.last_results)).getD [] = []) :
    export_pdf ud q fail =
      { editedText := some ("Sorry, I couldn\x27t find those results " ++
          "anymore. Please perform a new search."),
        sentDocument := none, replyTexts := [], tempFiles := [] } := by
  simp only [export_pdf, h]
  rfl

/-- Witness for C9: an export trigger with no stored session edits the
message and produces nothing. -/
theorem export_no_session_witness :
    ((none : Option SessionData).map (fun s => s.last_results)).getD [] = [] ∧
    (export_pdf none "delhi" none).sentDocument = none ∧
    (export_pdf none "delhi" none).tempFiles = [] :=
  ⟨rfl, by rw [export_no_session none "delhi" none rfl],
   by rw [export_no_session none "delhi" none rfl]⟩

/-- An unusable pattern (here an unterminated group, which Python rejects
with `re.error`) is swallowed by the wrapper: the search returns the empty
list rather than raising (companion fact to `search_never_raises`, shared
with no claim). -/
theorem search_invalid_pattern_empty : search_pincode [rec1] "(" = [] := by
  decide
